import Mathlib

/-!
Verification of the teaching-notebook repository (Feldman-Cousins, Monty Hall,
wine-quality DNN, Wilks-theorem notebooks) against its natural-language
specification.  The notebooks are shallowly embedded: each notebook's code
cells are embedded verbatim as lists of strings (for the syntactic claims
about FILL-HERE gaps, exception handling and concurrency), and the pure
computations that the claims are about (`px`, `mle`, the train/test split,
the Wilks toy loop, the download cell, the Monty Hall game) are translated
into executable Lean functions.
-/

set_option maxRecDepth 100000

/-! ## Substring search on character lists -/

/-- `matchesAt pat l` is true when `pat` is an initial segment of `l`.
Written with the bare recursor so that kernel evaluation stays linear. -/
def matchesAt (pat : List Char) : List Char → Bool :=
  List.rec (motive := fun _ => List Char → Bool)
    (fun _ => true)
    (fun a _ ih l => List.casesOn (motive := fun _ => Bool) l false
      (fun b bs => a == b && ih bs))
    pat

/-- `hasSub pat l` is true when `pat` occurs contiguously inside `l`. -/
def hasSub (pat : List Char) (l : List Char) : Bool :=
  List.rec (motive := fun _ => Bool)
    (matchesAt pat [])
    (fun c cs ih => matchesAt pat (c :: cs) || ih)
    l

/-- `containsText pat s` : the string `pat` occurs as a substring of `s`. -/
def containsText (pat s : String) : Bool := hasSub pat.toList s.toList

def fcCells : List String := [
  "\x69mport math\n\x69mport numpy as np\n%matplotlib inline\nfrom matplotlib \x69mport pyplot as plt",
  "# 1D Likelihood\n\ndef sample_from_pdf(theta,N):\n    # Draw N toys from the gaussian pdf\n    return np.random.normal(loc=theta, scale=1.0, size=N)\n\n\ndef lnL(x, theta):\n    return math.log(2*math.pi)-1/2.*(x-theta)**2\n\n\ndef mle(x):\n    # This implements the boundary at zero\n    return max(0.,x)\n\n# here we already did the computation of the likelihood ratio (eq. 4.3 of the paper)\ndef q(x, theta):\n    # The trick: \n    #return math.exp(-(x-theta)**2/2.) if x>=0 else math.exp(x*theta -theta**2/2)\n    return -(x-theta)**2/2. if x>=0 else x*theta -theta**2/2\n",
  "\ndef qdist(theta,measurements=None):\n    if measurements is None:\n        measurements=np.linspace(-2.,4., num=2000)\n    return [ q(x, theta) for x in measurements] \n\n# Given this function, we also need a function to compute its integral\n\ndef px(qdist,qobs,xspace=None,noprint=False):\n    # VERY crude integral\n    if xspace is None:\n        return(float(sum([ x for x in qdist if x >qobs])/sum(qdist)))\n    portion=[]\n    for i,x in zip(qdist,xspace):\n        if i>qobs:\n            portion.append(x)\n\n    return (portion[-1]-portion[0])/(xspace[-1]-xspace[0])\n",
  "# Compute the intervals\n# The full MC algorithm is described in Section V.B of the Feldman-Cousins paper\n# and clarified in https://arxiv.org/abs/1109.0714\n# To implement the very concise \"such that alpha of the simulated experiments have q<qobs\",\n# I did a simple scan of the values of the likelihood ratio, starting from the smallest\n# originally I was scanning in fixed intervals, but for different theta the likelihood\n# ratio has different ranges and scales, so a fixed-step scan did not work\n  \nalpha=0.90 # for a 90% CI\nxIntervals=[]\nmymeasurements=np.linspace(-2.,4., num=50)\nthetaspace=np.linspace(-2.,6., num=50)\ncount=0\n\nexampletoys=None\nexamplearr=None\nexampleqcrit=None\nfor theta in thetaspace:\n    #1. Draw a toy from the pdf\n    toys=sample_from_pdf(theta,10000)\n    #2. Compute the likelihood ratio for this toy\n    xandqobs = FILL HERE\n    #3. Find the value of qccritical such that alpha of the toy experiments have q<qcritical\n    xandqobs=np.array(xandqobs)\n    xandqobs=FILL HERE # order by likelihood ratio\n    qcrit=0.\n    #print(\x27theta=\x27,theta)\n    for qs in xandqobs[:,1]:\n        # Since we start from qcrit=0, and the neg-log-likeliood is positive, at first no value will be below\n        # so the loop is until the fraction becomes > alpha\n        prob=FILL HERE\n\n        if prob > alpha:\n            print(\x27Breaking at qcrit\x27, qcrit)\n            break\n        else: # this trick is to pick the last value for which prob >=alpha\n            qcrit=qs\n    \n    #4. The interval is given by the values of x s.t. qobstoy < qcritical\n    xInterval= FILL HERE\n    # Sort by likelihood ratio, even if they should already be \n    xInterval.sort()\n    xIntervals.append(xInterval)\n\n    count+=1\n    \nplt.hist(exampletoys, bins=mymeasurements, label=\x27Toys\x27)\nplt.plot(examplearr[:,0],examplearr[:,1], label=\x27Likelihood ratio\x27)\nplt.axhline(y=exampleqcrit, color=\x27r\x27, linestyle=\x27-\x27)\nplt.title(\x27Toys for theta = %s\x27%thetaspace[25])        \n    ",
  "plt.plot(examplearr[:,0],examplearr[:,1], label=\x27Likelihood ratio\x27)\nplt.yscale(\x27log\x27)\nplt.axhline(y=exampleqcrit, color=\x27r\x27, linestyle=\x27-\x27)\n",
  "# Plot with range used in the scan\n\nfc_intervals=[]\nfc_colors=[]\nfor i, theta in zip(xIntervals, thetaspace):\n    if len(i)==0:\n        continue\n    #fc_intervals.append([(i[0][0],theta),(i[-1][0],theta)])\n    #fc_intervals.append([(min(i),theta),(max(i),theta)])\n    fc_intervals.append([(i[0],theta),(i[-1],theta)])\n    fc_colors.append([0,1,0,1]) # blue?\nfrom matplotlib \x69mport collections  as mc\n\x69mport pylab as pl\nfc_coll = mc.LineCollection(fc_intervals, colors=np.array(fc_colors), linewidths=2)\nfig, ax = pl.subplots()\nax.add_collection(fc_coll)\nax.autoscale()\nplt.xlim((min(mymeasurements),max(mymeasurements)))\nplt.ylim((min(thetaspace), max(thetaspace)))\n\nplt.title(\x27Feldman cousins\x27)\nplt.xlabel(\x27\\hat\x7btheta\x7d\x27)\nplt.ylabel(\x27true theta\x27)\n",
  "# Plot with the range used by Feldman and Cousins\nother_fc_coll = mc.LineCollection(fc_intervals, colors=np.array(fc_colors), linewidths=2)\n\nfig, ax = pl.subplots()\nax.add_collection(other_fc_coll)\n#ax.autoscale()\nax.set_xlim((-2.,4.))\nax.set_ylim((0.,6.))\n\nplt.title(\x27Feldman cousins\x27)\nplt.xlabel(\x27\\hat\x7btheta\x7d\x27)\nplt.ylabel(\x27true theta\x27)",
  "# insert code here...",
  "",
  "#First we need a likelihood function, or even better the log-likelihood\n\n# Let\x27s assume we have a sample of N i.i.d. normal random variables with unit variance inserted in a vector x, then the likelihood is:\ndef lnL(x, theta):\n    # Gaussian likelihood\n    N=len(x)\n    return -N/2.*math.log(2*math.pi)-1/2.*sum((x-[theta for i in range(len(x))])**2)\n\n# Since we are at it, let\x27s also write down the MLE, that in case of a gaussian likelhood we know analytically it is the mean\n# We have to slightly modify it, though, to account for the physical boundary (we assume that for a measurement x, the physically-allowed value of the MLE for theta is therefore max(0,x)\n\ndef mle(x):\n    return max([sum(x)/len(x), 0.])",
  "# As a test, now let\x27s plot the log likelihood for a specific data realization\n#xobs=np.random.normal(loc=10, scale=1.0, size=10)\nxobs=np.random.normal(loc=0.5, scale=1.0, size=10)\n\n# Let\x27s scan a parameter range in theta from 5 to 15\nthetaspace=np.linspace(5., 15., num=20)\nprint(\x27theta space shape:\x27, thetaspace.shape, \x27dataspace:\x27, xobs.shape)\n\nmylnL=[ lnL(xobs,theta) for theta in thetaspace ]\n\nplt.plot(thetaspace, mylnL, label=\x27lnL function\x27)\nplt.axvline(x=mle(xobs), c=\x27red\x27, label=\x27MLE\x27)\nplt.title(\x27Log likelihood for the given xobs\x27)\nplt.xlabel(\x27theta\x27)\nplt.ylabel(\x27lnL(theta; xobs)\x27)\nplt.legend(loc=\x27best\x27)",
  "# Now we need the likelihood ratio.\n# Let\x27s first assume we don\x27t have any nuisance parameter.\n\ndef q(x, theta):\n    return -2*lnL(x, theta) -2*lnL(x,mle(x)) \n\n# Let\x27s plot the likelihood ratio\n\nmyq=[ q(xobs,theta) for theta in thetaspace ]\n\nplt.plot(thetaspace, myq, label=\x27q_xobs(theta)\x27)\nplt.axvline(x=mle(xobs), c=\x27red\x27, label=\x27MLE\x27)\nplt.title(\x27Likelihood ratio for the given xobs\x27)\nplt.xlabel(\x27theta\x27)\nplt.ylabel(\x27q(xobs,theta)\x27)\nplt.legend(loc=\x27best\x27)",
  "# Let\x27s generate the distribution of the test statistic for a generic measurement of the mean\n\ndef qdist(theta, anal):\n    measurements=np.linspace(-5.,15., num=2000)\n    return [ q(np.random.normal(loc=mu, scale=1.0, size=10), theta) for mu in measurements] \n\n# Given this function, we also need a function to compute its integral\n\ndef px(qdist,qobs):\n    # VERY crude integral\n    return(float(sum([ x for x in qdist if x >=qobs]) / sum(qdist)))\n",
  "# Choose the critical value\nalpha=0.68\n\nxIntervals=[]\nmymeasurements=np.linspace(-5.,15., num=50)\n\nfor theta in thetaspace:\n    xInterval=[]\n    for mu in mymeasurements:\n        xobsi=np.random.normal(loc=mu, scale=1.0, size=10)\n        qobs=q(xobsi,theta)\n        qcond=qdist(theta,True)\n        if px(qcond,qobs) > alpha:\n            xInterval.append(theta)\n    xIntervals.append(xInterval)\n\nprint(xIntervals)",
  "# Plot this\n\nlower=[]\nupper=[]\nfor i in xIntervals:\n    lower.append(min(i))\n    upper.append(max(i))\n    \nplt.plot(mymeasurements,lower)\nplt.plot(mymeasurements,upper)\nplt.axvline(x=mle(xobs), c=\x27red\x27, label=\x27MLE\x27)\nplt.title(\x27Feldman cousins\x27)\nplt.xlabel(\x27\\hat\x7btheta\x7d\x27)\nplt.ylabel(\x27true theta\x27)\nplt.legend(loc=\x27best\x27)"
]

def montyCells : List String := [
  "from random \x69mport choice #takes an array as an input and gives one random pick as output\n# call it like: choice()\n# if you\n# \x69mport random\n# then call it like: random.choice()",
  "\ndef monty_from_tijms(games=10000):\n    switch_wins=0 # Number of times switching door wins\n    stay_wins=0 # Number of times staying with the first chosen door wins\n    doors = [1, 2, 3]\n    for game in range(games): # Each game\n        prize_door = # randomly choose the door that contains the prize\n        chosen_door = # player picks a door at random\n        opened_door = # Monty Hall opens a non-prize non-chosen door\n        switch_door = # Select the door that would be chosen if switching\n        # Check if chosen_door would win, and add to counter\n        # Check if switch_door would win, and add to counter\n\n    print(\x27Win rate with a \"don\\\x27t switch\" strategy:\x27, stay_wins/games )\n    print(\x27Win rate with a \"switch\" strategy:\x27, switch_wins/games)\n        ",
  "# Run simulation\nmonty_from_tijms(10000)",
  "def ignorant_monty(games=10000):\n    switch_wins=0\n    stay_wins=0\n    open_wins=0\n    doors = [1, 2, 3]\n    for game in range(games):\n        prize_door = # randomly choose the door that contains the prize\n        chosen_door = # player picks a door at random\n        opened_door = # Monty Hall opens a non-chosen door. NOW HE RISKS OPENING THE PRIZE DOOR\n        switch_door = # Select the door that would be chosen if switching\n        # Check if chosen_door would win, and add to counter\n        # Check if switch_door would win, and add to counter\n        # Sanity check: check if the opened door wins, and add to counter\n    print(\x27Win rate with a \"don\\\x27t switch\" strategy:\x27, stay_wins/games )\n    print(\x27Win rate with a \"switch\" strategy:\x27, switch_wins/games)\n    print(\x27Loose rate due to \"prize is behind opened door\":\x27, open_wins/games)\n    print(\x27Sum of rates:\x27, (stay_wins+switch_wins+open_wins)/games)",
  "# Run simulation\nignorant_monty(10000)",
  ""
]

def wineCells : List String := [
  "\x69mport wget\n\x69mport os\n\x69mport numpy as np\n\x69mport pandas as pd\nfrom sklearn.model_selection \x69mport train_test_split\nfrom matplotlib \x69mport pyplot as plt",
  "\n\nfiles=[\x27https://archive.ics.uci.edu/ml/machine-learning-databases/wine-quality/winequality-red.csv\x27,\n    \x27https://archive.ics.uci.edu/ml/machine-learning-databases/wine-quality/winequality-white.csv\x27\n]\n    \nfor f in files:\n    if not os.path.exists(\x27./%s\x27%os.path.basename(f)): # so that we can rerun this without worrying of duplicate downloads\n        wget.download(f, \x27./%s\x27%os.path.basename(f))\n\n",
  "data = pd.read_csv(\x27winequality-red.csv\x27, delimiter=\x27;\x27)\n\n    \n# Visualize the first five entries\ndata.head()\n",
  "data = data.sample(frac=1).reset_index(drop=True)\n\ndata_tr=data.head(int(len(data)/2))\ndata_te=data.tail(len(data)-int(len(data)/2))\n\nprint(\x27Sanity check: \x27, len(data), \x27==\x27, len(data_tr), \x27+\x27, len(data_te),\x27: \x27, len(data)==len(data_tr)+len(data_te))\n",
  "y_train = np.array(data_tr[\x27quality\x27])\nx_train = data_tr.drop([\x27quality\x27], axis=1).T\ny_test  = np.array(data_te[\x27quality\x27])\nx_test  = data_te.drop([\x27quality\x27], axis=1).T\n\n",
  "# a: 2x3\na=[\n    [2,2,3],\n    [2,2,3]\n]\n# b: 3x4\nb=[\n   [1,2,3,4],\n   [1,2,3,4],\n   [1,2,3,4]\n]\n\n# a dot b: 2x4\n\nprint(np.dot(a,b))",
  "def sigmoid(input):    \n    return  #FILL HERE\n\n# Define the sigmoid derivative function\ndef sigmoid_derivative(input):\n    return #FILL HERE",
  "x=np.linspace(-10,10,100)\n\nplt.plot(x, sigmoid(x), label=\x27sigmoid(x)\x27)\nplt.plot(x, sigmoid_derivative(x), label=\x27sigmoid\\\x27(x)\x27)\nplt.xlabel(\x27x\x27)\nplt.ylabel(\x27f(x)\x27)\nplt.legend(loc=\x27best\x27)",
  "n_inputs = x_train.shape[0]\nn_hidden = 20  \nn_output = 1\n",
  "# From input layer to hidden layer\nweights_input_hidden =  #FILL HERE\n# From hidden layer to output layer\nweights_hidden_output = #FILL HERE",
  "# calculating hidden layer activations\nhiddenLayer_linearTransform = #FILL HERE\nhiddenLayer_activations =  #FILL HERE\n\n# calculating the output\noutputLayer_linearTransform =  #FILL HERE\noutput =  #FILL HERE\n\n\nprint(output)\n\nprint(\x27MSE:\x27, np.sum(np.square(y_train - output))/len(y_train))",
  "error = np.square(y_train - output) / 2\n",
  "# Linear transform of the output going towards hidden layer\no_to_h_lincomb  =  #FILL HERE\n# Linear transform of the output w.r.t. weights of hidden output\no_to_h_activation =  #FILL HERE\n\n\n\n# calculating rate of change of error w.r.t weight between hidden and output layer\nerror_wrt_output =  #FILL HERE\noutput_wrt_outputLayer_LinearTransform =  #FILL HERE\noutputLayer_LinearTransform_wrt_weights_hidden_output =  #FILL HERE\n\nerror_wrt_weights_hidden_output =  #FILL HERE\n\n# calculating rate of change of error w.r.t weights between input and hidden layer\noutputLayer_LinearTransform_wrt_hiddenLayer_activations = #FILL HERE\nhiddenLayer_activations_wrt_hiddenLayer_linearTransform =  #FILL HERE\nhiddenLayer_linearTransform_wrt_weights_input_hidden =  #FILL HERE\nerror_wrt_weights_input_hidden =  #FILL HERE",
  "# updating the weights\nweights_hidden_output =  #FILL HERE\nweights_input_hidden =  #FILL HERE\n\n",
  "",
  "plt.plot(losses)",
  ""
]

def wilksCells : List String := [
  "\x69mport os\n\x69mport sys\n\x69mport numpy as np\n\x69mport matplotlib.pyplot as plt\n\x69mport scipy.stats as ss\n\x69mport math\n\n%matplotlib inline",
  "n_pseudoexperiments=50\n\n# Poisson lambda\nlam=0.4\n\n# Lazily do it in one go\nn_observations=[10, 100, 1000]\n",
  "for nsampl in n_observations:\n    samples=np.zeros(n_pseudoexperiments)\n    print(\"Running pseudoexperiments for \x7bnsampl\x7d observations\".format(nsampl=nsampl))\n    for toy in range(1, n_pseudoexperiments):\n        # Generate nsampl observations from a Poisson(lam)\n        # Calculate the likelihood ratio test statistic and store it\n        \n    fix, ax = plt.subplots(1,1)\n    # It seems easier to normalize the histogram than the chi2\n    plt.hist(samples, density=True, color=\"black\")\n    plt.xlabel(\"Sampled values of log-likelihood ratio values\")\n    plt.ylabel(\"Frequency\")\n    plt.title(\"Log-likelihood ratio\")\n    x = np.linspace(0,20)\n    plt.plot(x,ss.chi2.pdf(x,1))\n    plt.show()",
  ""
]

/-- The code cells of all four notebooks of the repository. -/
def allNotebookCells : List (List String) := [fcCells, montyCells, wineCells, wilksCells]

/-- A cell contains the student-gap marker. -/
def cellHasFillHere (c : String) : Bool := containsText "FILL HERE" c

/-- Some code cell of the notebook contains the marker "FILL HERE". -/
def notebookHasFillHere (nb : List String) : Bool := nb.any cellHasFillHere

/-- C4 counterexample: the Monty Hall notebook (and likewise the Wilks notebook)
has no code cell containing the marker "FILL HERE", refuting the claim that each
of the four notebooks has at least one such cell. -/
theorem monty_and_wilks_no_fill_here :
    notebookHasFillHere montyCells = false ∧ notebookHasFillHere wilksCells = false :=
  ⟨rfl, rfl⟩

/-- C4 (amended): exactly two of the four notebooks - the Feldman-Cousins one and
the wine-quality one - contain at least one code cell marked "FILL HERE"; the
Monty Hall and Wilks notebooks leave their student gaps as bare comments instead. -/
theorem fill_here_markers :
    notebookHasFillHere fcCells = true ∧ notebookHasFillHere wineCells = true ∧
    notebookHasFillHere montyCells = false ∧ notebookHasFillHere wilksCells = false :=
  ⟨rfl, rfl, rfl, rfl⟩

/-! ## C5: error handling

The Feldman-Cousins notebook's integration helper (src/unnamed/part_000, cell 3):

    def px(qdist,qobs,xspace=None,noprint=False):
        if xspace is None:
            return(float(sum([ x for x in qdist if x >qobs])/sum(qdist)))
        portion=[]
        for i,x in zip(qdist,xspace):
            if i>qobs:
                portion.append(x)
        return (portion[-1]-portion[0])/(xspace[-1]-xspace[0])

Floats are modelled by rationals; a Python run-time failure (ZeroDivisionError on
`/sum(qdist)` or on a zero `xspace[-1]-xspace[0]`, IndexError on `portion[-1]`,
`portion[0]`, `xspace[-1]` or `xspace[0]` for an empty list) is modelled by `none`:
no result is returned. -/

def px (qdist : List ℚ) (qobs : ℚ) (xspace : Option (List ℚ)) (noprint : Bool) :
    Option ℚ :=
  match xspace with
  | none =>
      if qdist.sum = 0 then none
      else some ((qdist.filter (fun x => x > qobs)).sum / qdist.sum)
  | some xs =>
      let portion := ((qdist.zip xs).filter (fun p => p.1 > qobs)).map Prod.snd
      if hp : portion = [] then none
      else if hx : xs = [] then none
      else if xs.getLast hx - xs.head hx = 0 then none
      else some ((portion.getLast hp - portion.head hp) / (xs.getLast hx - xs.head hx))

/-- A cell's text contains the keyword starting a Python exception handler. -/
def cellCatches (c : String) : Bool := containsText "except" c

/-- C5: no code cell of any notebook contains an exception handler (`except`),
and on the failing inputs named in the claim `px` returns no result: with the
default `xspace=None` and `sum(qdist) = 0` the division fails, and with an
explicit `xspace` and no element of `qdist` above `qobs` the `portion[-1]`
lookup fails; in both cases the model returns `none`. -/
theorem failures_unhandled :
    (allNotebookCells.all (fun nb => nb.all (fun c => !cellCatches c)) = true) ∧
    (∀ (qdist : List ℚ) (qobs : ℚ) (noprint : Bool),
      qdist.sum = 0 → px qdist qobs none noprint = none) ∧
    (∀ (qdist xs : List ℚ) (qobs : ℚ) (noprint : Bool),
      (∀ q ∈ qdist, ¬ qobs < q) → px qdist qobs (some xs) noprint = none) := by
  refine ⟨rfl, ?_, ?_⟩
  · intro qdist qobs noprint h
    simp [px, h]
  · intro qdist xs qobs noprint h
    have hempty : ((qdist.zip xs).filter (fun p => decide (p.1 > qobs))).map Prod.snd = [] := by
      rw [List.map_eq_nil_iff, List.filter_eq_nil_iff]
      intro p hp
      have := List.of_mem_zip hp
      simpa using h p.1 this.1
    simp only [px]
    rw [dif_pos hempty]

/-- C5 witness: concrete failing inputs. -/
theorem failures_unhandled_witness :
    px [(1 : ℚ), -1] 0 none false = none ∧ px [(1 : ℚ)] 2 (some [5]) false = none :=
  ⟨failures_unhandled.2.1 [1, -1] 0 false (by norm_num),
   failures_unhandled.2.2 [1] [5] 2 false (by norm_num)⟩

/-! ## C6: concurrency -/

/-- Tokens by which Python code spawns threads, processes or asynchronous tasks. -/
def spawnTokens : List String :=
  ["thread", "Thread", "multiprocessing", "subprocess", "os.system", "popen",
   "Popen", "fork", "spawn", "async", "await", "Pool", "concurrent"]

set_option maxHeartbeats 2000000

/-- C6: no code cell of any notebook mentions any thread-, process- or
async-spawning construct: every script is a plain sequence of synchronous
single-threaded cell evaluations. -/
theorem no_concurrency :
    spawnTokens.all
      (fun t => allNotebookCells.all (fun nb => nb.all (fun c => !containsText t c))) = true := by
  decide

/-! ## C7: notebook independence

Each notebook's interface to the world outside its own cells, read off
its import statements and file operations (visible verbatim in the embedded
cells above): the modules it imports, the importable modules it defines (none: no
notebook writes a Python module), the data files it reads and the data files
it writes (only the wine notebook touches files: it downloads the two UCI
CSVs and reads the red-wine one). -/

structure NotebookModel where
  imports : List String
  definedModules : List String
  filesRead : List String
  filesWritten : List String
deriving DecidableEq

/-- The Feldman-Cousins notebook imports math, numpy, matplotlib.pyplot,
matplotlib.collections and pylab. -/
def fcModel : NotebookModel :=
  ⟨["math", "numpy", "matplotlib", "pylab"], [], [], []⟩

/-- The Monty Hall notebook imports choice from random. -/
def montyModel : NotebookModel :=
  ⟨["random"], [], [], []⟩

/-- The wine-quality notebook imports wget, os, numpy, pandas,
sklearn.model_selection and matplotlib.pyplot; it downloads the two UCI CSV
files and reads back the red-wine one. -/
def wineModel : NotebookModel :=
  ⟨["wget", "os", "numpy", "pandas", "sklearn", "matplotlib"], [],
   ["winequality-red.csv"],
   ["winequality-red.csv", "winequality-white.csv"]⟩

/-- The Wilks notebook imports os, sys, numpy, matplotlib.pyplot, scipy.stats
and math. -/
def wilksModel : NotebookModel :=
  ⟨["os", "sys", "numpy", "matplotlib", "scipy", "math"], [], [], []⟩

def notebookModels : List NotebookModel := [fcModel, montyModel, wineModel, wilksModel]

/-- The external libraries the course environment provides. -/
def externalLibraries : List String :=
  ["math", "numpy", "matplotlib", "pylab", "random", "wget", "os", "pandas",
   "sklearn", "sys", "scipy"]

/-- C7: the four notebooks are mutually independent: every import of every
notebook is an external library, no notebook defines a module at all (hence
none imports a module defined by another), and no notebook reads a file that
a different notebook writes, so no notebook's run is affected by whether the
others have run. -/
theorem notebooks_independent :
    (∀ nb ∈ notebookModels, nb.imports.all (externalLibraries.contains ·) = true) ∧
    (∀ nb ∈ notebookModels, nb.definedModules = []) ∧
    (∀ i j : Fin 4, i ≠ j →
      (notebookModels.get (i.cast (by rfl))).filesRead.inter
        ((notebookModels.get (j.cast (by rfl))).filesWritten) = []) := by
  refine ⟨?_, ?_, ?_⟩ <;> decide

/-- C7 witness: the Wilks notebook reads nothing the wine notebook writes. -/
theorem notebooks_independent_witness :
    (notebookModels.get ((3 : Fin 4).cast (by rfl))).filesRead.inter
      ((notebookModels.get ((2 : Fin 4).cast (by rfl))).filesWritten) = [] :=
  notebooks_independent.2.2 3 2 (by decide)

/-! ## C3: persistent state

The wine-quality notebook's download cell (src/unnamed/part_002):

    files=['https://.../winequality-red.csv', 'https://.../winequality-white.csv']
    for f in files:
        if not os.path.exists('./%s'%os.path.basename(f)):
            wget.download(f, './%s'%os.path.basename(f))

The working directory is modelled as the list of file names present in it;
`wget.download` creates the target file. -/

def urlRed : String :=
  "https://archive.ics.uci.edu/ml/machine-learning-databases/wine-quality/winequality-red.csv"

def urlWhite : String :=
  "https://archive.ics.uci.edu/ml/machine-learning-databases/wine-quality/winequality-white.csv"

def files : List String := [urlRed, urlWhite]

/-- `os.path.basename`: the part of the path after the last slash. -/
def basename (s : String) : String :=
  ⟨s.toList.foldl (fun acc c => if c = '/' then [] else acc ++ [c]) []⟩

/-- One iteration of the download loop: create `basename f` unless it exists. -/
def downloadStep (fs : List String) (f : String) : List String :=
  if basename f ∈ fs then fs else fs ++ [basename f]

/-- The effect of the wine notebook's download cell on the working directory. -/
def downloadCell (fs : List String) : List String := files.foldl downloadStep fs

/-- C3 counterexample: run in a directory that does not yet hold the datasets,
the wine notebook's download cell leaves two files behind - data that outlives
the script execution - so the repository does contain a notebook that creates
persistent state. -/
theorem download_leaves_files :
    downloadCell [] = ["winequality-red.csv", "winequality-white.csv"] ∧
    downloadCell [] ≠ [] :=
  ⟨rfl, by decide⟩

lemma mem_downloadStep_self (fs : List String) (f : String) :
    basename f ∈ downloadStep fs f := by
  unfold downloadStep
  split
  · assumption
  · exact List.mem_append_right _ (List.mem_singleton_self _)

lemma mem_downloadStep_of_mem {a : String} {fs : List String} (f : String)
    (h : a ∈ fs) : a ∈ downloadStep fs f := by
  unfold downloadStep
  split
  · exact h
  · exact List.mem_append_left _ h

lemma downloadStep_eq_of_mem {fs : List String} {f : String}
    (h : basename f ∈ fs) : downloadStep fs f = fs := if_pos h

lemma downloadCell_unfold (fs : List String) :
    downloadCell fs = downloadStep (downloadStep fs urlRed) urlWhite := rfl

lemma mem_downloadStep_cases {x : String} {fs : List String} {f : String}
    (h : x ∈ downloadStep fs f) : x ∈ fs ∨ x = basename f := by
  unfold downloadStep at h
  split at h
  · exact Or.inl h
  · rcases List.mem_append.1 h with h' | h'
    · exact Or.inl h'
    · exact Or.inr (List.mem_singleton.1 h')

/-- Tokens by which Python code in these notebooks could write a file. -/
def fileWriteTokens : List String :=
  ["wget", "open(", "to_csv", "savefig", ".save", "pickle"]

/-- C3 (amended): the wine-quality notebook does create persistent state - its
download cell, run in a directory without the datasets, leaves exactly the two
CSV files behind - but nothing else: any file present after the cell is either
pre-existing or one of the two CSVs, the cell is idempotent (a rerun finds the
files present and downloads nothing), and no code cell of the other three
notebooks contains any file-writing construct. -/
theorem download_cell_only_state :
    downloadCell [] = ["winequality-red.csv", "winequality-white.csv"] ∧
    (∀ fs, downloadCell (downloadCell fs) = downloadCell fs) ∧
    (∀ fs x, x ∈ downloadCell fs →
      x ∈ fs ∨ x = "winequality-red.csv" ∨ x = "winequality-white.csv") ∧
    ([fcCells, montyCells, wilksCells].all
      (fun nb => nb.all (fun c => fileWriteTokens.all (fun t => !containsText t c))) = true) := by
  refine ⟨rfl, ?_, ?_, by decide⟩
  · intro fs
    have h1 : basename urlRed ∈ downloadCell fs := by
      rw [downloadCell_unfold]
      exact mem_downloadStep_of_mem _ (mem_downloadStep_self fs urlRed)
    have h2 : basename urlWhite ∈ downloadCell fs := by
      rw [downloadCell_unfold]
      exact mem_downloadStep_self _ urlWhite
    calc downloadCell (downloadCell fs)
        = downloadStep (downloadStep (downloadCell fs) urlRed) urlWhite := rfl
      _ = downloadStep (downloadCell fs) urlWhite := by rw [downloadStep_eq_of_mem h1]
      _ = downloadCell fs := downloadStep_eq_of_mem h2
  · intro fs x hx
    rw [downloadCell_unfold] at hx
    have hred : basename urlRed = "winequality-red.csv" := by decide
    have hwhite : basename urlWhite = "winequality-white.csv" := by decide
    rcases mem_downloadStep_cases hx with h | h
    · rcases mem_downloadStep_cases h with h' | h'
      · exact Or.inl h'
      · exact Or.inr (Or.inl (h'.trans hred))
    · exact Or.inr (Or.inr (h.trans hwhite))

/-- C3 witness: a concrete run of the idempotence and no-other-file facts. -/
theorem download_cell_only_state_witness :
    downloadCell (downloadCell []) = downloadCell [] ∧
    ("winequality-red.csv" ∈ ([] : List String) ∨
      "winequality-red.csv" = "winequality-red.csv" ∨
      "winequality-red.csv" = "winequality-white.csv") :=
  ⟨download_cell_only_state.2.1 [],
   download_cell_only_state.2.2.1 [] "winequality-red.csv" (by decide)⟩

/-! ## C8: the Wilks notebook's toy loop

From src/lesson_2/wilks.ipynb:

    n_pseudoexperiments=50
    ...
    samples=np.zeros(n_pseudoexperiments)
    for toy in range(1, n_pseudoexperiments):
        # Generate nsampl observations from a Poisson(lam)
        # Calculate the likelihood ratio test statistic and store it
-/

def n_pseudoexperiments : ℕ := 50

/-- Python `range(1, n)`: the indices the toy loop iterates over. -/
def toyIndices (n : ℕ) : List ℕ := List.range' 1 (n - 1)

/-- Modelled from the spec: the toy-loop body is a student gap; per the in-code
comments it computes the likelihood-ratio test statistic of pseudo-experiment
`toy` and stores it, i.e. writes `samples[toy]`.  The statistic itself is
abstracted as an arbitrary function `stat`. -/
def runToyLoop (n : ℕ) (stat : ℕ → ℚ) : List ℚ :=
  (toyIndices n).foldl (fun samples toy => samples.set toy (stat toy)) (List.replicate n 0)

lemma foldl_set_length (stat : ℕ → ℚ) (l : List ℕ) (samples : List ℚ) :
    (l.foldl (fun s t => s.set t (stat t)) samples).length = samples.length := by
  induction l generalizing samples with
  | nil => rfl
  | cons t ts ih => rw [List.foldl_cons, ih, List.length_set]

lemma foldl_set_getzero (stat : ℕ → ℚ) (l : List ℕ) (h : ∀ t ∈ l, t ≠ 0)
    (samples : List ℚ) :
    (l.foldl (fun s t => s.set t (stat t)) samples)[0]? = samples[0]? := by
  induction l generalizing samples with
  | nil => rfl
  | cons t ts ih =>
    rw [List.foldl_cons, ih (fun u hu => h u (List.mem_cons_of_mem _ hu)),
      List.getElem?_set_ne (h t (List.mem_cons_self _ _))]

/-- C8: for every configured number `n ≥ 1` of pseudo-experiments, the toy loop
iterates over `range(1, n)`, i.e. exactly `n - 1` times; `samples` keeps its
configured length `n`, and `samples[0]`, never assigned, still holds `0.0`
when the array is histogrammed: one fewer pseudo-experiment is generated than
the configured count. -/
theorem wilks_toy_loop_off_by_one :
    ∀ (n : ℕ) (stat : ℕ → ℚ), 1 ≤ n →
      (toyIndices n).length = n - 1 ∧
      (runToyLoop n stat).length = n ∧
      (runToyLoop n stat)[0]? = some 0 := by
  intro n stat hn
  refine ⟨List.length_range' .., ?_, ?_⟩
  · rw [runToyLoop, foldl_set_length, List.length_replicate]
  · rw [runToyLoop, foldl_set_getzero, List.getElem?_replicate,
      if_pos (show 0 < n from hn)]
    intro t ht
    have := (List.mem_range'_1.1 ht).1
    omega

/-- C8 witness: at the notebook's configured `n_pseudoexperiments = 50`. -/
theorem wilks_toy_loop_off_by_one_witness :
    1 ≤ n_pseudoexperiments ∧
    ((toyIndices n_pseudoexperiments).length = n_pseudoexperiments - 1 ∧
      (runToyLoop n_pseudoexperiments (fun _ => 0)).length = n_pseudoexperiments ∧
      (runToyLoop n_pseudoexperiments (fun _ => 0))[0]? = some 0) :=
  ⟨by decide, wilks_toy_loop_off_by_one n_pseudoexperiments (fun _ => 0) (by decide)⟩

/-! ## C9: the wine notebook's train/test split

    data_tr=data.head(int(len(data)/2))
    data_te=data.tail(len(data)-int(len(data)/2))

The shuffled dataframe is modelled as a list of rows; `df.head(k)` keeps the
first `k` rows and `df.tail(k)` the last `k` rows. -/

def pdHead {α : Type} (l : List α) (k : ℕ) : List α := l.take k

def pdTail {α : Type} (l : List α) (k : ℕ) : List α := l.drop (l.length - k)

def data_tr {α : Type} (l : List α) : List α := pdHead l (l.length / 2)

def data_te {α : Type} (l : List α) : List α := pdTail l (l.length - l.length / 2)

/-- C9: for every dataframe of `n` rows, `data_tr` is the first `n / 2` rows,
`data_te` is the last `n - n / 2` rows, their lengths add up to `n`, and their
concatenation is the whole dataframe again, so every row index belongs to
exactly one of the two parts. -/
theorem wine_split_partition {α : Type} :
    ∀ l : List α,
      data_tr l ++ data_te l = l ∧
      (data_tr l).length = l.length / 2 ∧
      (data_te l).length = l.length - l.length / 2 ∧
      (data_tr l).length + (data_te l).length = l.length := by
  intro l
  have hdiv : l.length / 2 ≤ l.length := Nat.div_le_self _ _
  have hdrop : l.length - (l.length - l.length / 2) = l.length / 2 :=
    Nat.sub_sub_self hdiv
  have happ : data_tr l ++ data_te l = l := by
    rw [data_tr, data_te, pdHead, pdTail, hdrop, List.take_append_drop]
  have htr : (data_tr l).length = l.length / 2 := by
    rw [data_tr, pdHead, List.length_take, min_eq_left hdiv]
  have hte : (data_te l).length = l.length - l.length / 2 := by
    rw [data_te, pdTail, List.length_drop, hdrop]
  exact ⟨happ, htr, hte, by omega⟩

/-! ## C10: the boundary-respecting maximum-likelihood estimator

Scalar version (src/unnamed/part_000, Gaussian cell): `max(0.,x)`.
Vector version (same notebook, raw-data variation): `max([sum(x)/len(x), 0.])`;
on an empty list Python's `len(x)` is zero and the division fails, modelled by
`none`. -/

def mle (x : ℚ) : ℚ := max 0 x

def mle_vec (x : List ℚ) : Option ℚ :=
  if x.length = 0 then none else some (max (x.sum / (x.length : ℚ)) 0)

/-- C10: the scalar estimator is nonnegative, equals its argument exactly when
the argument is nonnegative, and is idempotent; the vector estimator, on any
nonempty sample, returns a nonnegative value that equals the unconstrained
estimate `mean x` exactly when that mean is nonnegative. -/
theorem mle_respects_boundary :
    (∀ x : ℚ, 0 ≤ mle x ∧ (mle x = x ↔ 0 ≤ x) ∧ mle (mle x) = mle x) ∧
    (∀ l : List ℚ, l ≠ [] →
      ∃ v, mle_vec l = some v ∧ 0 ≤ v ∧
        (v = l.sum / (l.length : ℚ) ↔ 0 ≤ l.sum / (l.length : ℚ))) := by
  constructor
  · intro x
    refine ⟨le_max_left 0 x, max_eq_right_iff, ?_⟩
    exact max_eq_right (le_max_left 0 x)
  · intro l hl
    have hlen : l.length ≠ 0 := fun h => hl (List.length_eq_zero.1 h)
    refine ⟨max (l.sum / (l.length : ℚ)) 0, ?_, le_max_right _ _, max_eq_left_iff⟩
    rw [mle_vec, if_neg hlen]

/-- C10 witness: the scalar estimator at `x = -2` and the vector estimator on
the one-element sample `[1]`. -/
theorem mle_respects_boundary_witness :
    (0 ≤ mle (-2) ∧ (mle (-2) = -2 ↔ 0 ≤ (-2 : ℚ)) ∧ mle (mle (-2)) = mle (-2)) ∧
    (∃ v, mle_vec [(1 : ℚ)] = some v ∧ 0 ≤ v ∧
      (v = [(1 : ℚ)].sum / (([(1 : ℚ)].length : ℕ) : ℚ) ↔
        0 ≤ [(1 : ℚ)].sum / (([(1 : ℚ)].length : ℕ) : ℚ))) :=
  ⟨mle_respects_boundary.1 (-2),
   mle_respects_boundary.2 [(1 : ℚ)] (List.cons_ne_nil 1 [])⟩

/-! ## C1: the Monty Hall simulation

From src/unnamed/part_001, `monty_from_tijms` (the loop body is a student gap;
the surrounding comments fix its meaning):

    doors = [1, 2, 3]
    for game in range(games):
        prize_door = # randomly choose the door that contains the prize
        chosen_door = # player picks a door at random
        opened_door = # Monty Hall opens a non-prize non-chosen door
        switch_door = # Select the door that would be chosen if switching
        # Check if chosen_door would win, and add to counter
        # Check if switch_door would win, and add to counter
-/

def doors : List ℕ := [1, 2, 3]

/-- The doors Monty may open: neither the prize door nor the chosen door. -/
def montyCandidates (prize_door chosen_door : ℕ) : List ℕ :=
  doors.filter (fun d => d != prize_door && d != chosen_door)

/-- Modelled from the spec: the drawing of Monty's door is a student gap; per
the claim ("Monty's opened non-prize non-chosen door [is] drawn as described")
he opens a candidate door uniformly at random.  A fair coin resolves the only
case with two candidates (prize door = chosen door); with a single candidate
both coin values open it. -/
def opened_door (prize_door chosen_door : ℕ) (coin : Bool) : ℕ :=
  (montyCandidates prize_door chosen_door).getD
    (if coin then (montyCandidates prize_door chosen_door).length - 1 else 0) 0

/-- The door the player ends on when switching: the remaining door that is
neither the chosen one nor the opened one. -/
def switch_door (chosen_door opened : ℕ) : ℕ :=
  (doors.filter (fun d => d != chosen_door && d != opened)).headD 0

/-- One game's randomness: the prize door, the chosen door, Monty's coin. -/
abbrev MontyGame := ℕ × ℕ × Bool

/-- The 18 equiprobable outcomes of one game: prize door and chosen door
uniform on `doors`, Monty's tie-breaking coin fair. -/
def allGames : List MontyGame :=
  doors.flatMap fun p => doors.flatMap fun c => [(p, c, true), (p, c, false)]

/-- The event counted in `stay_wins`: the first chosen door hides the prize. -/
def stay_wins_game : MontyGame → Bool
  | (p, c, _) => c == p

/-- The event counted in `switch_wins`: the switch door hides the prize. -/
def switch_wins_game : MontyGame → Bool
  | (p, c, coin) => switch_door c (opened_door p c coin) == p

/-- The value of the `switch_wins` counter after a sequence of games. -/
def switchCount (gs : List MontyGame) : ℕ := gs.countP switch_wins_game

/-- All equiprobable n-game histories of the simulation. -/
def histories : ℕ → List (List MontyGame)
  | 0 => [[]]
  | n + 1 => allGames.flatMap fun g => (histories n).map (g :: ·)

/-- The sum of the `switch_wins` counter over all n-game histories. -/
def totalSwitchWins (n : ℕ) : ℕ := ((histories n).map switchCount).sum

/-- The expected value of the `switch_wins` counter over n games. -/
def expectedSwitchWins (n : ℕ) : ℚ :=
  (totalSwitchWins n : ℚ) / (allGames.length : ℚ) ^ n

lemma switchCount_cons (g : MontyGame) (h : List MontyGame) :
    switchCount (g :: h) = switchCount h + (if switch_wins_game g then 1 else 0) :=
  List.countP_cons _ _ _

lemma sum_map_add_const {β : Type} (f : β → ℕ) (k : ℕ) (l : List β) :
    (l.map (fun x => f x + k)).sum = (l.map f).sum + l.length * k := by
  induction l with
  | nil => simp
  | cons a t ih =>
    simp only [List.map_cons, List.sum_cons, ih, List.length_cons]
    ring

lemma bind_cons_length (L : List MontyGame) (hs : List (List MontyGame)) :
    (L.flatMap fun g => hs.map (g :: ·)).length = L.length * hs.length := by
  induction L with
  | nil => simp
  | cons a t ih =>
    simp only [List.flatMap_cons, List.length_append, List.length_map, ih,
      List.length_cons]
    ring

lemma bind_cons_switch_sum (L : List MontyGame) (hs : List (List MontyGame)) :
    ((L.flatMap fun g => hs.map (g :: ·)).map switchCount).sum =
      L.countP switch_wins_game * hs.length + L.length * (hs.map switchCount).sum := by
  induction L with
  | nil => simp
  | cons a t ih =>
    have hmap : ((hs.map (a :: ·)).map switchCount).sum
        = (hs.map switchCount).sum + hs.length * (if switch_wins_game a then 1 else 0) := by
      rw [List.map_map]
      have hfun : switchCount ∘ (a :: ·)
          = fun h => switchCount h + (if switch_wins_game a then 1 else 0) :=
        funext fun h => switchCount_cons a h
      rw [hfun, sum_map_add_const]
    rw [List.flatMap_cons, List.map_append, List.sum_append, ih, List.countP_cons,
      hmap, List.length_cons]
    ring

lemma histories_length (n : ℕ) : (histories n).length = 18 ^ n := by
  induction n with
  | zero => rfl
  | succ n ih =>
    rw [histories, bind_cons_length, ih, show allGames.length = 18 from rfl]
    ring

lemma totalSwitchWins_succ (n : ℕ) :
    totalSwitchWins (n + 1) = 12 * 18 ^ n + 18 * totalSwitchWins n := by
  rw [totalSwitchWins, histories, bind_cons_switch_sum, histories_length,
    show allGames.countP switch_wins_game = 12 from rfl,
    show allGames.length = 18 from rfl]
  rfl

lemma expectedSwitchWins_eq (n : ℕ) : expectedSwitchWins n = 2 / 3 * n := by
  induction n with
  | zero =>
    rw [expectedSwitchWins, show totalSwitchWins 0 = 0 from rfl]
    norm_num
  | succ n ih =>
    have hlen : ((allGames.length : ℕ) : ℚ) = 18 := by
      norm_num [show allGames.length = 18 from rfl]
    have hpow : (18 : ℚ) ^ n ≠ 0 := by positivity
    rw [expectedSwitchWins, hlen] at ih
    have hT : (totalSwitchWins n : ℚ) = 2 / 3 * n * 18 ^ n := by
      rw [div_eq_iff hpow] at ih
      exact ih
    rw [expectedSwitchWins, hlen, totalSwitchWins_succ]
    push_cast
    rw [hT]
    field_simp
    ring

/-- C1: over the uniform distribution of a single game's random choices (prize
door, chosen door, Monty's pick among his candidate doors) the event counted in
`switch_wins` has probability 2/3 and the event counted in `stay_wins` has
probability 1/3, and for every positive number of games the expected value of
`switch_wins/games` is 2/3. -/
theorem monty_switch_wins_two_thirds :
    ((allGames.countP switch_wins_game : ℚ) / (allGames.length : ℚ) = 2 / 3) ∧
    ((allGames.countP stay_wins_game : ℚ) / (allGames.length : ℚ) = 1 / 3) ∧
    (∀ games : ℕ, 0 < games → expectedSwitchWins games / games = 2 / 3) := by
  refine ⟨?_, ?_, ?_⟩
  · norm_num [show allGames.countP switch_wins_game = 12 from rfl,
      show allGames.length = 18 from rfl]
  · norm_num [show allGames.countP stay_wins_game = 6 from rfl,
      show allGames.length = 18 from rfl]
  · intro games hg
    have hne : (games : ℚ) ≠ 0 := Nat.cast_ne_zero.2 hg.ne'
    rw [expectedSwitchWins_eq]
    exact mul_div_cancel_right₀ _ hne

/-- C1 witness: at the notebook's default `games = 10000`. -/
theorem monty_switch_wins_two_thirds_witness :
    0 < 10000 ∧ expectedSwitchWins 10000 / 10000 = 2 / 3 :=
  ⟨by decide, monty_switch_wins_two_thirds.2.2 10000 (by decide)⟩
